import Mathlib

/-!
Verification of the MRR Normalization and Retention Engine.

The definitions below are shallow embeddings of the Python functions in
`backend/app/services/stripe_service.py`, `backend/app/services/retention_service.py`
and `backend/app/api/v1/revenue_projections.py`.  Python floats are modelled as
rationals, unix timestamps as integers (seconds), currency amounts as integer
cents at the data boundary and rationals (dollars) inside computations.
Python `round(x, n)` uses round-half-to-even; `pyRound` models that exactly.
-/

/-- Round-half-to-even of a rational to an integer, the rounding mode of
Python `round`. -/
def pyRound (q : ℚ) : ℤ :=
  if q - ⌊q⌋ < 1/2 then ⌊q⌋
  else if 1/2 < q - ⌊q⌋ then ⌊q⌋ + 1
  else if ⌊q⌋ % 2 = 0 then ⌊q⌋ else ⌊q⌋ + 1

/-- Python `round(q, 2)`. -/
def round2 (q : ℚ) : ℚ := (pyRound (q * 100) : ℚ) / 100

/-- Python `round(q, 1)`. -/
def round1 (q : ℚ) : ℚ := (pyRound (q * 10) : ℚ) / 10

theorem le_pyRound (q : ℚ) : ⌊q⌋ ≤ pyRound q := by
  unfold pyRound
  split_ifs <;> omega

theorem pyRound_le_add_one (q : ℚ) : pyRound q ≤ ⌊q⌋ + 1 := by
  unfold pyRound
  split_ifs <;> omega

theorem pyRound_intCast (z : ℤ) : pyRound ((z : ℤ) : ℚ) = z := by
  unfold pyRound
  rw [Int.floor_intCast]
  norm_num

theorem pyRound_mono {a b : ℚ} (h : a ≤ b) : pyRound a ≤ pyRound b := by
  rcases lt_or_le ⌊a⌋ ⌊b⌋ with hf | hf
  · have h1 := pyRound_le_add_one a
    have h2 := le_pyRound b
    omega
  · have hfe : ⌊a⌋ = ⌊b⌋ := le_antisymm (Int.floor_le_floor h) hf
    have hab : a - (⌊b⌋ : ℚ) ≤ b - (⌊b⌋ : ℚ) := by linarith
    unfold pyRound
    rw [hfe]
    split_ifs <;> first | omega | linarith

/-- Round-half-to-even of complementary values sums back to the (even)
total: the key fact behind `retention_rate = 100 - churn_rate`. -/
theorem pyRound_add_pyRound_compl (n : ℤ) (hn : n % 2 = 0) (q : ℚ) :
    pyRound q + pyRound ((n : ℚ) - q) = n := by
  have ht0 : (0 : ℚ) ≤ q - ⌊q⌋ := by linarith [Int.floor_le q]
  have ht1 : q - (⌊q⌋ : ℚ) < 1 := by linarith [Int.lt_floor_add_one q]
  by_cases htz : q - (⌊q⌋ : ℚ) = 0
  · have hq : q = ((⌊q⌋ : ℤ) : ℚ) := by linarith
    have hcast : (n : ℚ) - ((⌊q⌋ : ℤ) : ℚ) = ((n - ⌊q⌋ : ℤ) : ℚ) := by push_cast; ring
    rw [hq, hcast, pyRound_intCast, pyRound_intCast]
    omega
  · have htpos : (0 : ℚ) < q - ⌊q⌋ := lt_of_le_of_ne ht0 (fun hh => htz hh.symm)
    have hfl : ⌊(n : ℚ) - q⌋ = n - ⌊q⌋ - 1 := by
      rw [Int.floor_eq_iff]
      constructor
      · push_cast
        linarith
      · push_cast
        linarith
    unfold pyRound
    rw [hfl]
    push_cast
    split_ifs <;> first | omega | linarith

theorem round1_mono {a b : ℚ} (h : a ≤ b) : round1 a ≤ round1 b := by
  unfold round1
  have h10 : a * 10 ≤ b * 10 := by linarith
  have := pyRound_mono h10
  have hc : (pyRound (a * 10) : ℚ) ≤ (pyRound (b * 10) : ℚ) := by exact_mod_cast this
  linarith

theorem round1_compl (x : ℚ) : round1 (100 - x) = 100 - round1 x := by
  unfold round1
  have h := pyRound_add_pyRound_compl 1000 (by norm_num) (x * 10)
  have hrw : (100 - x) * 10 = (1000 : ℚ) - x * 10 := by ring
  rw [hrw]
  have hc : (pyRound ((1000 : ℚ) - x * 10) : ℚ) = 1000 - (pyRound (x * 10) : ℚ) := by
    have : pyRound ((1000 : ℚ) - x * 10) = 1000 - pyRound (x * 10) := by
      have h1000 : ((1000 : ℤ) : ℚ) = (1000 : ℚ) := by norm_num
      rw [h1000] at h
      omega
    exact_mod_cast this
  rw [hc]
  ring

/-- A subscription item as the service builds it from a Stripe price:
`amount` is `price.unit_amount` in cents, `interval` is
`price.recurring.interval` (`none` when there is no recurring block), and
`interval_count` is `none` when the key is missing from the item dict or null. -/
structure SubscriptionItem where
  amount : ℤ
  interval : Option String
  interval_count : Option ℤ
deriving DecidableEq, Repr

/-- A subscription record as the service dicts expose it.  Timestamps are unix
seconds; `canceled_at` is `none` for the Python `None`. -/
structure Subscription where
  id : String
  customer : String
  status : String
  created : ℤ
  canceled_at : Option ℤ
  current_period_end : ℤ
  items : List SubscriptionItem
deriving DecidableEq, Repr

/-- Python truthiness of an optional integer (`if canceled_at:`):
`None` and `0` are falsy. -/
def pyTruthy : Option ℤ → Bool
  | none => false
  | some v => v != 0

/-- Models `item.get("interval_count", 1) or 1`: a missing key, a null value
and a zero all collapse to 1. -/
def getOrOne : Option ℤ → ℤ
  | none => 1
  | some v => if v = 0 then 1 else v

/-- Per-item term of the `calculate_mrr` loop in `stripe_service.py`:
convert cents to dollars, skip zero amounts, then normalize by billing
interval, dividing by the coerced interval count. -/
def mrrItemTerm (it : SubscriptionItem) : ℚ :=
  let amount : ℚ := (it.amount : ℚ) / 100
  if amount = 0 then 0
  else
    let ic : ℚ := ((getOrOne it.interval_count : ℤ) : ℚ)
    if it.interval = some "year" then amount / 12 / ic
    else if it.interval = some "month" then amount / ic
    else if it.interval = some "day" then amount * 30 / ic
    else if it.interval = some "week" then amount * 52 / 12 / ic
    else 0

/-- `StripeService.calculate_mrr`: accumulate the per-item terms over every
item of every subscription and round the final sum to 2 decimals. -/
def calculate_mrr (subscriptions : List Subscription) : ℚ :=
  round2 (subscriptions.foldl
    (fun acc s => s.items.foldl (fun a it => a + mrrItemTerm it) acc) 0)

/-- The interval-normalization table exactly as section 4.1 of the spec words
it, used to state refinement claims against the code. -/
def specNormalizeToMonthly (amount : ℚ) (interval : Option String) (intervalCount : ℚ) : ℚ :=
  if interval = some "month" then amount / intervalCount
  else if interval = some "year" then amount / 12 / intervalCount
  else if interval = some "week" then amount * 52 / 12 / intervalCount
  else if interval = some "day" then amount * 30 / intervalCount
  else 0

/-- Data-model invariant of section 3: every explicitly present interval
count is positive (`none` models a missing or null count). -/
def validIntervalCounts (subscriptions : List Subscription) : Bool :=
  subscriptions.all fun s => s.items.all fun it => decide (0 < it.interval_count.getD 1)

theorem foldl_add_map_sum {α : Type} (f : α → ℚ) (l : List α) (acc : ℚ) :
    l.foldl (fun a x => a + f x) acc = acc + (l.map f).sum := by
  induction l generalizing acc with
  | nil => simp
  | cons x xs ih => simp [ih, add_assoc]

theorem nested_foldl_eq_sum (f : SubscriptionItem → ℚ)
    (subs : List Subscription) (acc : ℚ) :
    subs.foldl (fun a s => s.items.foldl (fun b it => b + f it) a) acc
      = acc + (subs.map fun s => (s.items.map f).sum).sum := by
  induction subs generalizing acc with
  | nil => simp
  | cons s rest ih => simp [foldl_add_map_sum, ih, add_assoc]

theorem calculate_mrr_eq_sum (subscriptions : List Subscription) :
    calculate_mrr subscriptions =
      round2 ((subscriptions.map fun s => (s.items.map mrrItemTerm).sum).sum) := by
  unfold calculate_mrr
  rw [nested_foldl_eq_sum, zero_add]

theorem getOrOne_eq_getD (o : Option ℤ) (h : 0 < o.getD 1) : getOrOne o = o.getD 1 := by
  cases o with
  | none => rfl
  | some v =>
    simp only [Option.getD_some] at h ⊢
    simp only [getOrOne]
    omega

theorem mrrItemTerm_eq_spec (it : SubscriptionItem) (h : 0 < it.interval_count.getD 1) :
    mrrItemTerm it =
      if it.amount = 0 then 0
      else specNormalizeToMonthly ((it.amount : ℚ) / 100) it.interval
        ((it.interval_count.getD 1 : ℤ) : ℚ) := by
  have hz : ((it.amount : ℚ) / 100 = 0) ↔ it.amount = 0 := by
    constructor
    · intro hh; field_simp at hh; exact_mod_cast hh
    · intro hh; simp [hh]
  unfold mrrItemTerm specNormalizeToMonthly
  rw [getOrOne_eq_getD it.interval_count h]
  by_cases ha : it.amount = 0
  · simp [ha, hz.mpr ha]
  · have ha2 : ¬ ((it.amount : ℚ) / 100 = 0) := fun hh => ha (hz.mp hh)
    simp only [ha2, if_false, ha]
    rcases hi : it.interval with _ | s
    · simp
    · by_cases h1 : s = "year"
      · subst h1; simp
      · by_cases h2 : s = "month"
        · subst h2; simp
        · by_cases h3 : s = "day"
          · subst h3; simp
          · by_cases h4 : s = "week"
            · subst h4; simp
            · simp [h1, h2, h3, h4]

/-- C1: for every subscription list, `calculate_mrr` equals the 2-decimal
rounding of the sum, over all items with non-zero amount, of the section-4.1
monthly normalization of the item (month: amount/ic, year: amount/12/ic,
week: amount*52/12/ic, day: amount*30/ic, unknown interval: 0, missing or
null interval count treated as 1), with rounding applied only to the final
sum. -/
theorem mrr_is_rounded_sum_of_normalized_items (subscriptions : List Subscription)
    (h : validIntervalCounts subscriptions = true) :
    calculate_mrr subscriptions =
      round2 ((subscriptions.map fun s =>
        (s.items.map fun it =>
          if it.amount = 0 then 0
          else specNormalizeToMonthly ((it.amount : ℚ) / 100) it.interval
            ((it.interval_count.getD 1 : ℤ) : ℚ)).sum).sum) := by
  unfold validIntervalCounts at h
  simp only [List.all_eq_true, decide_eq_true_eq] at h
  rw [calculate_mrr_eq_sum]
  congr 1
  apply congrArg
  apply List.map_congr_left
  intro s hs
  apply congrArg
  apply List.map_congr_left
  intro it hit
  exact mrrItemTerm_eq_spec it (h s hs it hit)

/-- Per-item term of the `calculate_acv` loop: normalize to annual value.
The source has no week branch and no zero-amount skip here. -/
def acvItemTerm (it : SubscriptionItem) : ℚ :=
  let amount : ℚ := (it.amount : ℚ) / 100
  let ic : ℚ := ((getOrOne it.interval_count : ℤ) : ℚ)
  if it.interval = some "year" then amount / ic
  else if it.interval = some "month" then amount * 12 / ic
  else if it.interval = some "day" then amount * 365 / ic
  else 0

/-- `StripeService.calculate_acv`: average annualized value per
subscription, 0 for an empty list. -/
def calculate_acv (subscriptions : List Subscription) : ℚ :=
  if subscriptions.isEmpty then 0
  else
    round2 ((subscriptions.foldl
      (fun acc s => acc + s.items.foldl (fun a it => a + acvItemTerm it) 0) 0)
        / (subscriptions.length : ℚ))

/-- Division that signals the Python `ZeroDivisionError` as `none`. -/
def checkedDiv (a b : ℚ) : Option ℚ := if b = 0 then none else some (a / b)

/-- `calculate_mrr`s per-item computation with every division checked. -/
def mrrItemTermChecked (it : SubscriptionItem) : Option ℚ := do
  let amount ← checkedDiv (it.amount : ℚ) 100
  if amount = 0 then pure 0
  else
    let ic : ℚ := ((getOrOne it.interval_count : ℤ) : ℚ)
    if it.interval = some "year" then do
      let x ← checkedDiv amount 12
      checkedDiv x ic
    else if it.interval = some "month" then checkedDiv amount ic
    else if it.interval = some "day" then checkedDiv (amount * 30) ic
    else if it.interval = some "week" then do
      let x ← checkedDiv (amount * 52) 12
      checkedDiv x ic
    else pure 0

/-- `calculate_mrr` with every division checked: `none` would mean a
`ZeroDivisionError` escapes the function. -/
def calculate_mrr_checked (subscriptions : List Subscription) : Option ℚ := do
  let total ← subscriptions.foldlM
    (fun acc s => s.items.foldlM
      (fun a it => do
        let t ← mrrItemTermChecked it
        pure (a + t)) acc)
    (0 : ℚ)
  pure (round2 total)

/-- `calculate_acv`s per-item computation with every division checked. -/
def acvItemTermChecked (it : SubscriptionItem) : Option ℚ := do
  let amount ← checkedDiv (it.amount : ℚ) 100
  let ic : ℚ := ((getOrOne it.interval_count : ℤ) : ℚ)
  if it.interval = some "year" then checkedDiv amount ic
  else if it.interval = some "month" then checkedDiv (amount * 12) ic
  else if it.interval = some "day" then checkedDiv (amount * 365) ic
  else pure 0

/-- `calculate_acv` with every division checked, including the final
division by the subscription count. -/
def calculate_acv_checked (subscriptions : List Subscription) : Option ℚ :=
  if subscriptions.isEmpty then pure 0
  else do
    let total ← subscriptions.foldlM
      (fun acc s => do
        let av ← s.items.foldlM
          (fun a it => do
            let t ← acvItemTermChecked it
            pure (a + t)) (0 : ℚ)
        pure (acc + av))
      (0 : ℚ)
    let r ← checkedDiv total (subscriptions.length : ℚ)
    pure (round2 r)

theorem checkedDiv_eq (a b : ℚ) (h : b ≠ 0) : checkedDiv a b = some (a / b) := by
  simp [checkedDiv, h]

theorem getOrOne_cast_ne_zero (o : Option ℤ) : ((getOrOne o : ℤ) : ℚ) ≠ 0 := by
  cases o with
  | none => norm_num [getOrOne]
  | some v =>
    simp only [getOrOne]
    split_ifs with h
    · norm_num
    · exact_mod_cast h

theorem mrrItemTermChecked_eq (it : SubscriptionItem) :
    mrrItemTermChecked it = some (mrrItemTerm it) := by
  unfold mrrItemTermChecked mrrItemTerm
  rw [checkedDiv_eq _ _ (by norm_num)]
  simp only [Option.bind_some, Option.some_bind, bind, pure]
  split_ifs <;>
    simp [checkedDiv_eq _ _ (by norm_num : (12 : ℚ) ≠ 0),
      checkedDiv_eq _ _ (getOrOne_cast_ne_zero it.interval_count)]

theorem acvItemTermChecked_eq (it : SubscriptionItem) :
    acvItemTermChecked it = some (acvItemTerm it) := by
  unfold acvItemTermChecked acvItemTerm
  rw [checkedDiv_eq _ _ (by norm_num)]
  simp only [Option.bind_some, Option.some_bind, bind, pure]
  split_ifs <;>
    simp [checkedDiv_eq _ _ (getOrOne_cast_ne_zero it.interval_count)]

theorem foldlM_option_eq {α β : Type} (f : β → α → Option β) (g : β → α → β)
    (hf : ∀ b a, f b a = some (g b a)) (l : List α) (init : β) :
    l.foldlM f init = some (l.foldl g init) := by
  induction l generalizing init with
  | nil => rfl
  | cons x xs ih => simp [List.foldlM_cons, hf, ih]

/-- C8: neither `calculate_mrr` nor `calculate_acv` can hit a division by
zero: with every division guarded, both always return `some` of the
unguarded result — an `interval_count` of 0 or null is coerced to 1 before
it is used as a divisor. -/
theorem mrr_acv_never_divide_by_zero (subscriptions : List Subscription) :
    calculate_mrr_checked subscriptions = some (calculate_mrr subscriptions) ∧
    calculate_acv_checked subscriptions = some (calculate_acv subscriptions) := by
  constructor
  · unfold calculate_mrr_checked calculate_mrr
    have hG : ∀ (a : ℚ) (it : SubscriptionItem),
        (do
          let t ← mrrItemTermChecked it
          pure (a + t) : Option ℚ) = some (a + mrrItemTerm it) := by
      intro a it
      rw [mrrItemTermChecked_eq]
      rfl
    have hF : ∀ (acc : ℚ) (s : Subscription),
        s.items.foldlM (fun a it => do
          let t ← mrrItemTermChecked it
          pure (a + t)) acc
          = some (s.items.foldl (fun a it => a + mrrItemTerm it) acc) := by
      intro acc s
      exact foldlM_option_eq _ _ hG s.items acc
    rw [foldlM_option_eq _ _ hF subscriptions 0]
    rfl
  · unfold calculate_acv_checked calculate_acv
    by_cases he : subscriptions.isEmpty
    · simp [he, pure]
    · simp only [he, if_false]
      have hG : ∀ (a : ℚ) (it : SubscriptionItem),
          (do
            let t ← acvItemTermChecked it
            pure (a + t) : Option ℚ) = some (a + acvItemTerm it) := by
        intro a it
        rw [acvItemTermChecked_eq]
        rfl
      have hF : ∀ (acc : ℚ) (s : Subscription),
          (do
            let av ← s.items.foldlM (fun a it => do
              let t ← acvItemTermChecked it
              pure (a + t)) (0 : ℚ)
            pure (acc + av) : Option ℚ)
            = some (acc + s.items.foldl (fun a it => a + acvItemTerm it) 0) := by
        intro acc s
        rw [foldlM_option_eq _ _ hG s.items 0]
        rfl
      rw [foldlM_option_eq _ _ hF subscriptions 0]
      have hlen : ((subscriptions.length : ℚ)) ≠ 0 := by
        have : subscriptions ≠ [] := by
          intro hh
          rw [hh] at he
          exact he rfl
        have hpos : 0 < subscriptions.length := List.length_pos.mpr this
        positivity
      show Option.bind _ _ = _
      rw [checkedDiv_eq _ _ hlen]
      rfl

/-- Concrete input for the C1 witness: the quarterly billing of spec
scenario 2 ($2997 every 3 months). -/
def c1Sub : Subscription :=
  ⟨"sub_c1", "cus_c1", "active", 1690000000, none, 1700000000,
    [⟨299700, some "month", some 3⟩]⟩

/-- C1 witness: the theorem instantiated at a concrete quarterly
subscription. -/
theorem mrr_is_rounded_sum_of_normalized_items_witness :
    validIntervalCounts [c1Sub] = true ∧
    calculate_mrr [c1Sub] =
      round2 ((([c1Sub]).map fun s =>
        (s.items.map fun it =>
          if it.amount = 0 then 0
          else specNormalizeToMonthly ((it.amount : ℚ) / 100) it.interval
            ((it.interval_count.getD 1 : ℤ) : ℚ)).sum).sum) :=
  ⟨by decide, mrr_is_rounded_sum_of_normalized_items [c1Sub] (by decide)⟩

theorem round2_intCast (z : ℤ) : round2 ((z : ℤ) : ℚ) = ((z : ℤ) : ℚ) := by
  unfold round2
  have h : ((z : ℤ) : ℚ) * 100 = ((z * 100 : ℤ) : ℚ) := by push_cast; ring
  rw [h, pyRound_intCast]
  push_cast
  field_simp

/-- Result record of `StripeService.calculate_arpu`. -/
structure ArpuResult where
  arpu_monthly : ℚ
  arpu_annual : ℚ
  total_customers : ℕ
  total_mrr : ℚ
deriving DecidableEq, Repr

/-- `StripeService.calculate_arpu`: MRR divided by the number of unique
customer ids appearing in the list (`len(set(...))` becomes dedup length). -/
def calculate_arpu (subscriptions : List Subscription) : ArpuResult :=
  if subscriptions.isEmpty then ⟨0, 0, 0, 0⟩
  else
    let total_mrr := calculate_mrr subscriptions
    let unique_customers := ((subscriptions.map Subscription.customer).dedup).length
    let arpu_monthly := if 0 < unique_customers then total_mrr / (unique_customers : ℚ) else 0
    let arpu_annual := arpu_monthly * 12
    ⟨round2 arpu_monthly, round2 arpu_annual, unique_customers, round2 total_mrr⟩

/-- Number of distinct customer ids in a subscription list. -/
def distinctCustomers (subscriptions : List Subscription) : ℕ :=
  ((subscriptions.map Subscription.customer).dedup).length

/-- A customer whose only item is $0 (a trial). -/
def c6FreeSub : Subscription :=
  ⟨"sub_free", "cus_free", "active", 1690000000, none, 1700000000,
    [⟨0, some "month", some 1⟩]⟩

/-- A customer paying $100/month. -/
def c6PaidSub : Subscription :=
  ⟨"sub_paid", "cus_paid", "active", 1690000000, none, 1700000000,
    [⟨10000, some "month", some 1⟩]⟩

/-- C6 counterexample: with one all-$0 customer and one $100/month customer,
the code counts 2 customers and reports ARPU $50, while the claim (MRR over
distinct paying customers) demands denominator 1 and ARPU $100. -/
theorem arpu_counts_nonpaying_customers :
    (calculate_arpu [c6FreeSub, c6PaidSub]).total_customers = 2 ∧
    (calculate_arpu [c6FreeSub, c6PaidSub]).arpu_monthly = 50 ∧
    ((50 : ℚ) ≠ 100) := by
  have hm : calculate_mrr [c6FreeSub, c6PaidSub] = 100 := by
    simp [calculate_mrr, mrrItemTerm, c6FreeSub, c6PaidSub, getOrOne]
    norm_num [round2, pyRound]
  have hrec : calculate_arpu [c6FreeSub, c6PaidSub] = ⟨50, 600, 2, 100⟩ := by
    have hd : ((["cus_free", "cus_paid"] : List String).dedup) =
        ["cus_free", "cus_paid"] := by decide
    simp only [calculate_arpu, hm]
    simp [c6FreeSub, c6PaidSub, hd]
    norm_num [round2, pyRound]
  rw [hrec]
  exact ⟨rfl, rfl, by norm_num⟩

/-- C6 amended: `calculate_arpu` divides total MRR by the number of distinct
customers in the list — paying or not, an all-$0 customer still raises the
denominator — and returns the all-zero record exactly when the list is
empty. -/
theorem arpu_is_mrr_over_distinct_customers (subscriptions : List Subscription) :
    calculate_arpu subscriptions =
      if subscriptions.isEmpty then ⟨0, 0, 0, 0⟩
      else
        ⟨round2 (calculate_mrr subscriptions / (distinctCustomers subscriptions : ℚ)),
         round2 (calculate_mrr subscriptions / (distinctCustomers subscriptions : ℚ) * 12),
         distinctCustomers subscriptions,
         round2 (calculate_mrr subscriptions)⟩ := by
  unfold calculate_arpu distinctCustomers
  by_cases he : subscriptions.isEmpty
  · simp [he]
  · have hne : subscriptions ≠ [] := by
      intro hh
      rw [hh] at he
      exact he rfl
    have hpos : 0 < ((subscriptions.map Subscription.customer).dedup).length := by
      rw [List.length_pos, Ne, List.dedup_eq_nil]
      simp [hne]
    simp [he, hpos]

/-- The item processing of `_get_all_subscriptions_with_items`: the produced
item dicts carry price, amount, currency and interval but no
`interval_count` key. -/
def stripIntervalCount (s : Subscription) : Subscription :=
  { s with items := s.items.map fun it => { it with interval_count := none } }

/-- Result record of `StripeService.calculate_churn_rate`. -/
structure ChurnResult where
  customer_churn_rate : ℚ
  revenue_churn_rate : ℚ
  period_months : ℤ
  customers_at_start : ℕ
  customers_churned : ℕ
  mrr_at_start : ℚ
  mrr_churned : ℚ
  current_mrr : ℚ
deriving DecidableEq, Repr

/-- `StripeService.calculate_churn_rate`: the subscription list it works on
is fetched through `_get_all_subscriptions_with_items`, which strips the
interval count from every item. -/
def calculate_churn_rate (rawSubscriptions : List Subscription)
    (months nowTs : ℤ) : ChurnResult :=
  let start_timestamp := nowTs - months * 30 * 86400
  let end_timestamp := nowTs
  let all_subscriptions := rawSubscriptions.map stripIntervalCount
  let active_subscriptions := all_subscriptions.filter fun s => decide (s.status = "active")
  let current_mrr := calculate_mrr active_subscriptions
  let active_at_start := all_subscriptions.filter fun s =>
    decide (s.created < start_timestamp) &&
      (decide (s.status = "active") ||
        (pyTruthy s.canceled_at && decide (start_timestamp ≤ s.canceled_at.getD 0)))
  let churned_subscriptions := all_subscriptions.filter fun s =>
    pyTruthy s.canceled_at &&
      decide (start_timestamp ≤ s.canceled_at.getD 0 ∧ s.canceled_at.getD 0 < end_timestamp)
  let churned_mrr := calculate_mrr churned_subscriptions
  let start_mrr := current_mrr + churned_mrr
  let unique_customers_at_start := distinctCustomers active_at_start
  let unique_churned_customers := distinctCustomers churned_subscriptions
  let customer_churn_rate :=
    if 0 < unique_customers_at_start then
      (unique_churned_customers : ℚ) / (unique_customers_at_start : ℚ) * 100
    else 0
  let revenue_churn_rate := if 0 < start_mrr then churned_mrr / start_mrr * 100 else 0
  ⟨round2 customer_churn_rate, round2 revenue_churn_rate, months,
    unique_customers_at_start, unique_churned_customers,
    round2 start_mrr, round2 churned_mrr, round2 current_mrr⟩

/-- An active $100/month subscription. -/
def c2ActiveSub : Subscription :=
  ⟨"sub_act", "cus_act", "active", 1600000000, none, 1700000000,
    [⟨10000, some "month", some 1⟩]⟩

/-- A churned quarterly subscription: $2997 billed every 3 months, canceled
inside the 3-month analysis window ending at now = 1700000000. -/
def c2ChurnedSub : Subscription :=
  ⟨"sub_q", "cus_q", "canceled", 1600000000, some 1695000000, 1695000000,
    [⟨299700, some "month", some 3⟩]⟩

/-- C2: evaluation of the code at the failing input. The claim (and spec
section 6) requires churned MRR to be normalized by the interval count, so
the $2997-every-3-months churned item must contribute $999; the fetch layer
drops `interval_count`, `calculate_mrr` defaults it to 1, and the code
reports $2997 of churned MRR instead. -/
theorem churned_mrr_ignores_interval_count :
    (calculate_churn_rate [c2ActiveSub, c2ChurnedSub] 3 1700000000).mrr_churned = 2997 ∧
    ((2997 : ℚ) ≠ 999) := by
  refine ⟨?_, by norm_num⟩
  simp only [calculate_churn_rate]
  simp [stripIntervalCount, c2ActiveSub, c2ChurnedSub, pyTruthy,
    calculate_mrr, mrrItemTerm, getOrOne]
  norm_num [round2, pyRound]

/-- Seconds difference converted to days, the `(a - b) / 86400` of the
retention service. -/
def daysBetween (a b : ℤ) : ℚ := ((a - b : ℤ) : ℚ) / 86400

/-- Result record of `RetentionService.calculate_steady_state_churn`. -/
structure SteadyStateResult where
  monthly_rate : ℚ
  annual_rate : ℚ
  customers_analyzed : ℕ
  churned_in_period : ℕ
  average_lifespan_months : ℚ
  lookback_months : ℤ
deriving DecidableEq, Repr

/-- The survivor filter of `calculate_steady_state_churn`: old enough to
have completed the early period and not churned during it. -/
def steadyStateSurvivors (subscriptions : List Subscription)
    (early_period_days nowTs : ℤ) : List Subscription :=
  subscriptions.filter fun s =>
    decide (s.created ≤ nowTs - early_period_days * 86400) &&
      !(pyTruthy s.canceled_at &&
        decide (daysBetween (s.canceled_at.getD 0) s.created ≤ (early_period_days : ℚ)))

/-- The churn counter of `calculate_steady_state_churn`: cancellations in
the trailing lookback window that happened after the early period. -/
def steadyStateChurnedCount (survivors : List Subscription)
    (early_period_days lookback_months nowTs : ℤ) : ℕ :=
  survivors.countP fun s =>
    pyTruthy s.canceled_at &&
      decide (nowTs - lookback_months * 30 * 86400 ≤ s.canceled_at.getD 0) &&
      decide ((early_period_days : ℚ) < daysBetween (s.canceled_at.getD 0) s.created)

/-- `RetentionService.calculate_steady_state_churn`. -/
def calculate_steady_state_churn (subscriptions : List Subscription)
    (early_period_days lookback_months nowTs : ℤ) : SteadyStateResult :=
  let survivors := steadyStateSurvivors subscriptions early_period_days nowTs
  if survivors.isEmpty then ⟨0, 0, 0, 0, 0, lookback_months⟩
  else
    let churned_in_period :=
      steadyStateChurnedCount survivors early_period_days lookback_months nowTs
    let monthly_churn_rate :=
      (churned_in_period : ℚ) / ((survivors.length : ℚ) * (lookback_months : ℚ)) * 100
    let annual_churn_rate := (1 - (1 - monthly_churn_rate / 100) ^ 12) * 100
    let average_lifespan := if 0 < monthly_churn_rate then 100 / monthly_churn_rate else 120
    ⟨round2 monthly_churn_rate, round1 annual_churn_rate, survivors.length,
      churned_in_period, round1 average_lifespan, lookback_months⟩

/-- C3 counterexample: with an empty subscription list the survivor set is
empty, the monthly rate is 0, and the code returns
`average_lifespan_months = 0`, not the 120 the claim demands for every
zero-rate case. -/
theorem steady_state_empty_survivors_lifespan_zero :
    (calculate_steady_state_churn [] 60 6 1700000000).monthly_rate = 0 ∧
    (calculate_steady_state_churn [] 60 6 1700000000).average_lifespan_months = 0 ∧
    ((0 : ℚ) ≠ 120) := by
  refine ⟨?_, ?_, by norm_num⟩ <;>
    simp [calculate_steady_state_churn, steadyStateSurvivors]

/-- C3 amended: when the survivor set is non-empty the steady-state record
satisfies monthlyRate = churned/(survivors*lookback)*100 (rounded to 2
decimals), annualRate = (1-(1-monthlyRate/100)^12)*100 compounded from the
unrounded monthly rate (rounded to 1 decimal), and averageLifespanMonths =
100/monthlyRate defaulting to 120 when the rate is 0; when the survivor set
is empty every output, including the lifespan, is 0. -/
theorem steady_state_churn_formulas (subscriptions : List Subscription)
    (early_period_days lookback_months nowTs : ℤ) :
    (steadyStateSurvivors subscriptions early_period_days nowTs ≠ [] →
      (calculate_steady_state_churn subscriptions early_period_days lookback_months nowTs).monthly_rate
        = round2 ((steadyStateChurnedCount
              (steadyStateSurvivors subscriptions early_period_days nowTs)
              early_period_days lookback_months nowTs : ℚ)
            / (((steadyStateSurvivors subscriptions early_period_days nowTs).length : ℚ)
                * (lookback_months : ℚ)) * 100) ∧
      (calculate_steady_state_churn subscriptions early_period_days lookback_months nowTs).annual_rate
        = round1 ((1 - (1 - ((steadyStateChurnedCount
              (steadyStateSurvivors subscriptions early_period_days nowTs)
              early_period_days lookback_months nowTs : ℚ)
            / (((steadyStateSurvivors subscriptions early_period_days nowTs).length : ℚ)
                * (lookback_months : ℚ)) * 100) / 100) ^ 12) * 100) ∧
      (calculate_steady_state_churn subscriptions early_period_days lookback_months nowTs).average_lifespan_months
        = round1 (if 0 < (steadyStateChurnedCount
              (steadyStateSurvivors subscriptions early_period_days nowTs)
              early_period_days lookback_months nowTs : ℚ)
            / (((steadyStateSurvivors subscriptions early_period_days nowTs).length : ℚ)
                * (lookback_months : ℚ)) * 100
          then 100 / ((steadyStateChurnedCount
              (steadyStateSurvivors subscriptions early_period_days nowTs)
              early_period_days lookback_months nowTs : ℚ)
            / (((steadyStateSurvivors subscriptions early_period_days nowTs).length : ℚ)
                * (lookback_months : ℚ)) * 100)
          else 120) ∧
      (calculate_steady_state_churn subscriptions early_period_days lookback_months nowTs).customers_analyzed
        = (steadyStateSurvivors subscriptions early_period_days nowTs).length) ∧
    (steadyStateSurvivors subscriptions early_period_days nowTs = [] →
      calculate_steady_state_churn subscriptions early_period_days lookback_months nowTs
        = ⟨0, 0, 0, 0, 0, lookback_months⟩) := by
  constructor
  · intro hne
    have he : (steadyStateSurvivors subscriptions early_period_days nowTs).isEmpty = false := by
      simp [List.isEmpty_iff, hne]
    simp only [calculate_steady_state_churn, he]
    simp
  · intro hemp
    simp only [calculate_steady_state_churn, hemp]
    simp

/-- A surviving active subscription for the C3 witness. -/
def c3SurvivorSub : Subscription :=
  ⟨"sub_s", "cus_s", "active", 1680000000, none, 1700000000,
    [⟨49900, some "month", some 1⟩]⟩

/-- C3 witness: one mature active survivor, no churn — monthly rate 0 and
the 120-month lifespan default. -/
theorem steady_state_churn_formulas_witness :
    steadyStateSurvivors [c3SurvivorSub] 60 1700000000 ≠ [] ∧
    (calculate_steady_state_churn [c3SurvivorSub] 60 6 1700000000).monthly_rate = 0 ∧
    (calculate_steady_state_churn [c3SurvivorSub] 60 6 1700000000).average_lifespan_months = 120 := by
  have hne : steadyStateSurvivors [c3SurvivorSub] 60 1700000000 ≠ [] := by decide
  have hlen : (steadyStateSurvivors [c3SurvivorSub] 60 1700000000).length = 1 := by decide
  have hc : steadyStateChurnedCount (steadyStateSurvivors [c3SurvivorSub] 60 1700000000)
      60 6 1700000000 = 0 := by decide
  have h := (steady_state_churn_formulas [c3SurvivorSub] 60 6 1700000000).1 hne
  refine ⟨hne, ?_, ?_⟩
  · rw [h.1, hc, hlen]
    norm_num [round2, pyRound]
  · rw [h.2.2.1, hc, hlen]
    norm_num [round1, pyRound]

/-- Result record of `RetentionService.calculate_cohort_retention`. -/
structure CohortRetention where
  total : ℕ
  retained_30d : ℕ
  retained_60d : ℕ
  retained_90d : ℕ
  retained_180d : ℕ
  retained_365d : ℕ
  retention_30d_pct : ℚ
  retention_60d_pct : ℚ
  retention_90d_pct : ℚ
  retention_180d_pct : ℚ
  retention_365d_pct : ℚ
deriving DecidableEq, Repr

/-- Days a subscription has been active: until cancellation if canceled,
until the analysis date otherwise. -/
def daysActive (analysis_timestamp : ℤ) (s : Subscription) : ℚ :=
  if pyTruthy s.canceled_at then daysBetween (s.canceled_at.getD 0) s.created
  else daysBetween analysis_timestamp s.created

/-- Members of a cohort whose active span reaches horizon `h` days. -/
def retainedAt (cohort : List Subscription) (analysis_timestamp h : ℤ) : ℕ :=
  cohort.countP fun s => decide ((h : ℚ) ≤ daysActive analysis_timestamp s)

/-- `RetentionService.calculate_cohort_retention`: retained counts and
percentages at the five fixed horizons, all zero for an empty cohort. -/
def calculate_cohort_retention (cohort : List Subscription)
    (analysis_timestamp : ℤ) : CohortRetention :=
  let total := cohort.length
  if total = 0 then ⟨0, 0, 0, 0, 0, 0, 0, 0, 0, 0, 0⟩
  else
    let r30 := retainedAt cohort analysis_timestamp 30
    let r60 := retainedAt cohort analysis_timestamp 60
    let r90 := retainedAt cohort analysis_timestamp 90
    let r180 := retainedAt cohort analysis_timestamp 180
    let r365 := retainedAt cohort analysis_timestamp 365
    ⟨total, r30, r60, r90, r180, r365,
      round1 ((r30 : ℚ) / (total : ℚ) * 100),
      round1 ((r60 : ℚ) / (total : ℚ) * 100),
      round1 ((r90 : ℚ) / (total : ℚ) * 100),
      round1 ((r180 : ℚ) / (total : ℚ) * 100),
      round1 ((r365 : ℚ) / (total : ℚ) * 100)⟩

theorem retainedAt_anti (cohort : List Subscription) (analysis_timestamp : ℤ)
    {h1 h2 : ℤ} (hle : h1 ≤ h2) :
    retainedAt cohort analysis_timestamp h2 ≤ retainedAt cohort analysis_timestamp h1 := by
  unfold retainedAt
  apply List.countP_mono_left
  intro s _
  simp only [decide_eq_true_eq]
  intro hge
  have hc : (h1 : ℚ) ≤ (h2 : ℚ) := by exact_mod_cast hle
  linarith

theorem retention_pct_mono {a b total : ℕ} (hab : a ≤ b) (ht : 0 < total) :
    round1 ((a : ℚ) / (total : ℚ) * 100) ≤ round1 ((b : ℚ) / (total : ℚ) * 100) := by
  apply round1_mono
  have h1 : (a : ℚ) ≤ (b : ℚ) := by exact_mod_cast hab
  have h2 : (0 : ℚ) < (total : ℚ) := by exact_mod_cast ht
  have h3 : (a : ℚ) / (total : ℚ) ≤ (b : ℚ) / (total : ℚ) := by
    apply div_le_div_of_nonneg_right h1 h2.le
  linarith

/-- C4: for every cohort and analysis date the retained counts and the
retention percentages are non-increasing across the 30/60/90/180/365-day
horizons. -/
theorem cohort_retention_monotone (cohort : List Subscription)
    (analysis_timestamp : ℤ) :
    ((calculate_cohort_retention cohort analysis_timestamp).retained_60d
        ≤ (calculate_cohort_retention cohort analysis_timestamp).retained_30d ∧
      (calculate_cohort_retention cohort analysis_timestamp).retained_90d
        ≤ (calculate_cohort_retention cohort analysis_timestamp).retained_60d ∧
      (calculate_cohort_retention cohort analysis_timestamp).retained_180d
        ≤ (calculate_cohort_retention cohort analysis_timestamp).retained_90d ∧
      (calculate_cohort_retention cohort analysis_timestamp).retained_365d
        ≤ (calculate_cohort_retention cohort analysis_timestamp).retained_180d) ∧
    ((calculate_cohort_retention cohort analysis_timestamp).retention_60d_pct
        ≤ (calculate_cohort_retention cohort analysis_timestamp).retention_30d_pct ∧
      (calculate_cohort_retention cohort analysis_timestamp).retention_90d_pct
        ≤ (calculate_cohort_retention cohort analysis_timestamp).retention_60d_pct ∧
      (calculate_cohort_retention cohort analysis_timestamp).retention_180d_pct
        ≤ (calculate_cohort_retention cohort analysis_timestamp).retention_90d_pct ∧
      (calculate_cohort_retention cohort analysis_timestamp).retention_365d_pct
        ≤ (calculate_cohort_retention cohort analysis_timestamp).retention_180d_pct) := by
  unfold calculate_cohort_retention
  by_cases ht : cohort.length = 0
  · simp [ht]
  · have htpos : 0 < cohort.length := Nat.pos_of_ne_zero ht
    simp only [ht, if_false]
    refine ⟨⟨?_, ?_, ?_, ?_⟩, ⟨?_, ?_, ?_, ?_⟩⟩ <;>
      first
        | exact retainedAt_anti cohort analysis_timestamp (by norm_num)
        | exact retention_pct_mono
            (retainedAt_anti cohort analysis_timestamp (by norm_num)) htpos

/-- Result record of `RetentionService.calculate_early_churn`. -/
structure EarlyChurnResult where
  period_days : ℤ
  customers_analyzed : ℕ
  churned_early : ℕ
  churn_rate : ℚ
  retained_past_early : ℕ
  retention_rate : ℚ
deriving DecidableEq, Repr

/-- The eligibility filter of `calculate_early_churn`: subscriptions old
enough to have completed the early period. -/
def earlyChurnEligible (subscriptions : List Subscription)
    (early_period_days nowTs : ℤ) : List Subscription :=
  subscriptions.filter fun s => decide (s.created ≤ nowTs - early_period_days * 86400)

/-- Eligible subscriptions that canceled within the early period. -/
def earlyChurnedCount (eligible : List Subscription) (early_period_days : ℤ) : ℕ :=
  eligible.countP fun s =>
    pyTruthy s.canceled_at &&
      decide (daysBetween (s.canceled_at.getD 0) s.created ≤ (early_period_days : ℚ))

/-- `RetentionService.calculate_early_churn`. -/
def calculate_early_churn (subscriptions : List Subscription)
    (early_period_days nowTs : ℤ) : EarlyChurnResult :=
  let eligible := earlyChurnEligible subscriptions early_period_days nowTs
  if eligible.isEmpty then ⟨early_period_days, 0, 0, 0, 0, 0⟩
  else
    let churned_early := earlyChurnedCount eligible early_period_days
    let total := eligible.length
    let retained := total - churned_early
    ⟨early_period_days, total, churned_early,
      if 0 < total then round1 ((churned_early : ℚ) / (total : ℚ) * 100) else 0,
      retained,
      if 0 < total then round1 ((retained : ℚ) / (total : ℚ) * 100) else 0⟩

/-- C7: `calculate_early_churn` analyzes exactly the subscriptions created
at least `early_period_days` in the past; among those, with at least one
eligible subscription, the churn rate is churned/eligible*100 (rounded to 1
decimal) and the retention rate is exactly 100 minus the churn rate; with
zero eligible subscriptions it returns churn rate 0 and 0 customers
analyzed instead of dividing by zero. -/
theorem early_churn_rates (subscriptions : List Subscription)
    (early_period_days nowTs : ℤ) :
    (calculate_early_churn subscriptions early_period_days nowTs).customers_analyzed
        = (earlyChurnEligible subscriptions early_period_days nowTs).length ∧
    (earlyChurnEligible subscriptions early_period_days nowTs ≠ [] →
      (calculate_early_churn subscriptions early_period_days nowTs).churn_rate
          = round1 ((earlyChurnedCount
                (earlyChurnEligible subscriptions early_period_days nowTs)
                early_period_days : ℚ)
              / ((earlyChurnEligible subscriptions early_period_days nowTs).length : ℚ)
              * 100) ∧
      (calculate_early_churn subscriptions early_period_days nowTs).retention_rate
          = 100 - (calculate_early_churn subscriptions early_period_days nowTs).churn_rate) ∧
    (earlyChurnEligible subscriptions early_period_days nowTs = [] →
      (calculate_early_churn subscriptions early_period_days nowTs).churn_rate = 0 ∧
      (calculate_early_churn subscriptions early_period_days nowTs).customers_analyzed = 0) := by
  refine ⟨?_, ?_, ?_⟩
  · by_cases he : (earlyChurnEligible subscriptions early_period_days nowTs).isEmpty
    · have hnil : earlyChurnEligible subscriptions early_period_days nowTs = [] :=
        List.isEmpty_iff.mp he
      simp [calculate_early_churn, he, hnil]
    · have hef : (earlyChurnEligible subscriptions early_period_days nowTs).isEmpty = false := by
        simp only [Bool.not_eq_true] at he
        exact he
      simp [calculate_early_churn, hef]
  · intro hne
    have hef : (earlyChurnEligible subscriptions early_period_days nowTs).isEmpty = false := by
      simp [List.isEmpty_iff, hne]
    have htpos : 0 < (earlyChurnEligible subscriptions early_period_days nowTs).length :=
      List.length_pos.mpr hne
    have hle : earlyChurnedCount (earlyChurnEligible subscriptions early_period_days nowTs)
        early_period_days
          ≤ (earlyChurnEligible subscriptions early_period_days nowTs).length :=
      List.countP_le_length _
    have hne0 : ((earlyChurnEligible subscriptions early_period_days nowTs).length : ℚ) ≠ 0 := by
      positivity
    constructor
    · simp [calculate_early_churn, hef, htpos]
    · simp only [calculate_early_churn, hef, Bool.false_eq_true, if_false, htpos, if_pos]
      rw [Nat.cast_sub hle]
      have hsplit :
          (((earlyChurnEligible subscriptions early_period_days nowTs).length : ℚ)
              - (earlyChurnedCount (earlyChurnEligible subscriptions early_period_days nowTs)
                  early_period_days : ℚ))
            / ((earlyChurnEligible subscriptions early_period_days nowTs).length : ℚ) * 100
          = 100 - (earlyChurnedCount (earlyChurnEligible subscriptions early_period_days nowTs)
                  early_period_days : ℚ)
              / ((earlyChurnEligible subscriptions early_period_days nowTs).length : ℚ) * 100 := by
        field_simp
        ring
      rw [hsplit, round1_compl]
  · intro hnil
    have he : (earlyChurnEligible subscriptions early_period_days nowTs).isEmpty := by
      simp [List.isEmpty_iff, hnil]
    simp [calculate_early_churn, he]

/-- A subscription that churned 30 days after signup. -/
def c7ChurnedSub : Subscription :=
  ⟨"sub_e1", "cus_e1", "canceled", 1600000000, some 1602592000, 1600000000, []⟩

/-- A subscription still active well past the early window. -/
def c7RetainedSub : Subscription :=
  ⟨"sub_e2", "cus_e2", "active", 1600000000, none, 1600000000, []⟩

/-- C7 witness: two eligible subscriptions, one churned within 60 days —
churn rate 50, retention rate 100 − 50. -/
theorem early_churn_rates_witness :
    (calculate_early_churn [c7ChurnedSub, c7RetainedSub] 60 1700000000).churn_rate = 50 ∧
    (calculate_early_churn [c7ChurnedSub, c7RetainedSub] 60 1700000000).retention_rate
      = 100 - 50 := by
  have hel : earlyChurnEligible [c7ChurnedSub, c7RetainedSub] 60 1700000000
      = [c7ChurnedSub, c7RetainedSub] := by decide
  have hne : earlyChurnEligible [c7ChurnedSub, c7RetainedSub] 60 1700000000 ≠ [] := by
    rw [hel]
    decide
  have h := (early_churn_rates [c7ChurnedSub, c7RetainedSub] 60 1700000000).2.1 hne
  have hcount : earlyChurnedCount
      (earlyChurnEligible [c7ChurnedSub, c7RetainedSub] 60 1700000000) 60 = 1 := by
    rw [hel]
    simp [earlyChurnedCount, List.countP_cons, c7ChurnedSub, c7RetainedSub, pyTruthy,
      daysBetween]
    norm_num
  have hlen : (earlyChurnEligible [c7ChurnedSub, c7RetainedSub] 60 1700000000).length = 2 := by
    rw [hel]
    rfl
  refine ⟨?_, ?_⟩
  · rw [h.1, hcount, hlen]
    norm_num [round1, pyRound]
  · rw [h.2, h.1, hcount, hlen]
    norm_num [round1, pyRound]

/-- Per-item monthly normalization inside
`get_upcoming_billings.process_subscription`: month, year and week branches
only — an interval of day falls through and contributes nothing. -/
def upcomingItemMonthly (it : SubscriptionItem) : ℚ :=
  let amount : ℚ := (it.amount : ℚ) / 100
  let ic : ℚ := ((it.interval_count.getD 1 : ℤ) : ℚ)
  if it.interval = some "month" then amount / ic
  else if it.interval = some "year" then amount / 12 / ic
  else if it.interval = some "week" then amount * 52 / 12 / ic
  else 0

/-- The per-subscription amount `get_upcoming_billings` carries into every
bucket and total: the sum of the item normalizations, rounded to 2
decimals. -/
def upcomingSubAmount (items : List SubscriptionItem) : ℚ :=
  round2 (items.foldl (fun a it => a + upcomingItemMonthly it) 0)

/-- C5: evaluation of the code at the failing input. A $1000 item billed
every day should contribute (1000*30)/1 = $30000 per the section-4.1 table
the claim cites, but the `process_subscription` normalization in
`get_upcoming_billings` has no day branch, so the code projects $0. -/
theorem upcoming_billing_drops_day_interval :
    upcomingSubAmount [⟨100000, some "day", some 1⟩] = 0 ∧
    specNormalizeToMonthly ((100000 : ℚ) / 100) (some "day") 1 = 30000 ∧
    ((0 : ℚ) ≠ 30000) := by
  refine ⟨?_, ?_, by norm_num⟩
  · simp [upcomingSubAmount, upcomingItemMonthly]
    norm_num [round2, pyRound]
  · simp [specNormalizeToMonthly]
    norm_num

/-- One step of the shared per-subscription loop of the month-detail,
quarterly-forecast and annual-forecast endpoints: a zero item is skipped;
otherwise `sub_amount` is overwritten with this item and the monthly term
is added to `sub_mrr`. -/
def projStep (acc : ℚ × ℚ) (it : SubscriptionItem) : ℚ × ℚ :=
  let amount : ℚ := (it.amount : ℚ) / 100
  if amount = 0 then acc
  else
    let ic : ℚ := ((it.interval_count.getD 1 : ℤ) : ℚ)
    let monthly : ℚ :=
      if it.interval = some "year" then amount / 12
      else if it.interval = some "month" then amount / ic
      else if it.interval = some "week" then amount * 52 / 12
      else 0
    (amount, acc.2 + monthly)

/-- The `(sub_amount, sub_mrr)` pair those endpoints compute per
subscription. -/
def projSubFold (items : List SubscriptionItem) : ℚ × ℚ :=
  items.foldl projStep (0, 0)

/-- The per-item monthly term of those endpoints, in isolation. -/
def projItemMonthly (it : SubscriptionItem) : ℚ :=
  let amount : ℚ := (it.amount : ℚ) / 100
  if amount = 0 then 0
  else
    let ic : ℚ := ((it.interval_count.getD 1 : ℤ) : ℚ)
    if it.interval = some "year" then amount / 12
    else if it.interval = some "month" then amount / ic
    else if it.interval = some "week" then amount * 52 / 12
    else 0

/-- Invoice amount (in dollars) of the last item with a non-zero amount;
0 when every item is zero. -/
def lastNonzeroAmount (items : List SubscriptionItem) : ℚ :=
  ((items.filter fun it => decide (it.amount ≠ 0)).getLast?).elim 0
    fun it => (it.amount : ℚ) / 100

theorem foldl_const_last {α : Type} (f : α → ℚ) (l : List α) (a : ℚ) :
    l.foldl (fun _ x => f x) a = l.getLast?.elim a f := by
  induction l generalizing a with
  | nil => rfl
  | cons x xs ih =>
    cases xs with
    | nil => rfl
    | cons y ys =>
      rw [List.foldl_cons, ih, List.getLast?_cons_cons]
      rcases hz : (y :: ys).getLast? with _ | z
      · have hs : (y :: ys).getLast?.isSome := List.getLast?_isSome.mpr (by simp)
        rw [hz] at hs
        simp at hs
      · rfl

theorem projSubFold_loop (items : List SubscriptionItem) (a m : ℚ) :
    items.foldl projStep (a, m)
      = ((items.filter fun it => decide (it.amount ≠ 0)).foldl
            (fun _ it => (it.amount : ℚ) / 100) a,
         m + (items.map projItemMonthly).sum) := by
  induction items generalizing a m with
  | nil => simp
  | cons it rest ih =>
    by_cases hz : (it.amount : ℚ) / 100 = 0
    · have hz2 : it.amount = 0 := by
        field_simp at hz
        exact_mod_cast hz
      have hterm : projItemMonthly it = 0 := by simp [projItemMonthly, hz]
      have hstep : projStep (a, m) it = (a, m) := by simp [projStep, hz]
      have hfil : (decide (it.amount ≠ 0)) = false := by simp [hz2]
      simp only [List.foldl_cons, List.filter_cons, List.map_cons, List.sum_cons,
        hstep, hfil, Bool.false_eq_true, if_false]
      rw [ih, hterm, zero_add]
    · have hz2 : it.amount ≠ 0 := by
        intro hh
        apply hz
        simp [hh]
      simp only [List.foldl_cons, List.filter_cons, List.map_cons, List.sum_cons]
      have hstep : projStep (a, m) it
          = ((it.amount : ℚ) / 100, m + projItemMonthly it) := by
        simp [projStep, projItemMonthly, hz]
      rw [hstep, ih]
      have hfil : (decide (it.amount ≠ 0)) = true := by
        simp [hz2]
      rw [hfil]
      simp [add_assoc]

/-- C9: in the month-detail, quarterly-forecast and annual-forecast
projections, the per-subscription invoice amount is the amount of the last
non-zero item alone (each non-zero item overwrites the previous value),
while the same loop's MRR figure is the sum of every item's monthly term. -/
theorem projection_amount_is_last_nonzero_item (items : List SubscriptionItem) :
    projSubFold items = (lastNonzeroAmount items, (items.map projItemMonthly).sum) := by
  unfold projSubFold lastNonzeroAmount
  rw [projSubFold_loop, foldl_const_last, zero_add]

/-- First branch of the `get_upcoming_billings` elif chain:
`today_start <= billing_date < tomorrow_start`. -/
def inTodayBucket (todayStart bd : ℤ) : Bool :=
  decide (todayStart ≤ bd ∧ bd < todayStart + 86400)

/-- Second branch: `tomorrow_start <= billing_date < tomorrow_start + 1d`. -/
def inTomorrowBucket (todayStart bd : ℤ) : Bool :=
  decide (todayStart + 86400 ≤ bd ∧ bd < todayStart + 2 * 86400)

/-- Third branch: `tomorrow_start + 1d <= billing_date < week_end`. -/
def inRestOfWeekBucket (todayStart bd : ℤ) : Bool :=
  decide (todayStart + 2 * 86400 ≤ bd ∧ bd < todayStart + 7 * 86400)

/-- Fourth branch: `week_end <= billing_date < month_end`, where
`month_end = today_start + days`. -/
def inRestOfMonthBucket (todayStart days bd : ℤ) : Bool :=
  decide (todayStart + 7 * 86400 ≤ bd ∧ bd < todayStart + days * 86400)

/-- The cumulative `this_week` membership test:
`today_start <= billing_date < week_end`. -/
def inWeekTotal (todayStart bd : ℤ) : Bool :=
  decide (todayStart ≤ bd ∧ bd < todayStart + 7 * 86400)

/-- The cumulative `this_month` membership test:
`today_start <= billing_date < month_end`. -/
def inMonthTotal (todayStart days bd : ℤ) : Bool :=
  decide (todayStart ≤ bd ∧ bd < todayStart + days * 86400)

/-- The four amount totals `get_upcoming_billings` returns. -/
structure UpcomingTotals where
  today : ℚ
  tomorrow : ℚ
  this_week : ℚ
  this_month : ℚ
deriving DecidableEq, Repr

/-- One iteration of the `get_upcoming_billings` aggregation loop: the
elif chain adds the amount to at most one of the exclusive totals (the
rest-of-week and rest-of-month branches only append to detail lists), then
the two cumulative totals are updated by their own independent tests. -/
def addBilling (todayStart days : ℤ) (t : UpcomingTotals) (bd : ℤ)
    (amount : ℚ) : UpcomingTotals :=
  let t1 :=
    if inTodayBucket todayStart bd then { t with today := t.today + amount }
    else if inTomorrowBucket todayStart bd then { t with tomorrow := t.tomorrow + amount }
    else t
  let t2 :=
    if inWeekTotal todayStart bd then { t1 with this_week := t1.this_week + amount } else t1
  if inMonthTotal todayStart days bd then { t2 with this_month := t2.this_month + amount }
  else t2

/-- The totals of `get_upcoming_billings` over a list of
(current_period_end, amount) pairs. -/
def upcomingTotals (todayStart days : ℤ) (billings : List (ℤ × ℚ)) : UpcomingTotals :=
  billings.foldl (fun t b => addBilling todayStart days t b.1 b.2) ⟨0, 0, 0, 0⟩

/-- C10 counterexample: with daysAhead = 1, a billing dated 3 days out
(259200 s, at or after today + daysAhead) is still placed in the
rest-of-week detail bucket and still added to the this_week total. -/
theorem billing_beyond_days_ahead_still_counted :
    ((0 : ℤ) + 1 * 86400 ≤ 259200) ∧
    inRestOfWeekBucket 0 259200 = true ∧
    (upcomingTotals 0 1 [(259200, 100)]).this_week = 100 ∧
    ((100 : ℚ) ≠ 0) := by
  refine ⟨by norm_num, by decide, ?_, by norm_num⟩
  simp [upcomingTotals, addBilling, inTodayBucket, inTomorrowBucket, inWeekTotal,
    inMonthTotal]

/-- C10 amended: every billing joins at most one of the four detail
buckets; a billing dated before the start of today joins no bucket and no
total; and provided daysAhead is at least 7, a billing dated at or after
today plus daysAhead days joins no bucket and no total.  (For daysAhead
below 7 the exclusion fails: dates in [today+daysAhead, today+7d) still
join the rest-of-week bucket and the this_week total.) -/
theorem billing_buckets_exclusive_and_bounded (todayStart days bd : ℤ)
    (t : UpcomingTotals) (amount : ℚ) :
    (¬(inTodayBucket todayStart bd = true ∧ inTomorrowBucket todayStart bd = true) ∧
      ¬(inTodayBucket todayStart bd = true ∧ inRestOfWeekBucket todayStart bd = true) ∧
      ¬(inTodayBucket todayStart bd = true ∧ inRestOfMonthBucket todayStart days bd = true) ∧
      ¬(inTomorrowBucket todayStart bd = true ∧ inRestOfWeekBucket todayStart bd = true) ∧
      ¬(inTomorrowBucket todayStart bd = true ∧ inRestOfMonthBucket todayStart days bd = true) ∧
      ¬(inRestOfWeekBucket todayStart bd = true ∧ inRestOfMonthBucket todayStart days bd = true)) ∧
    (bd < todayStart →
      inTodayBucket todayStart bd = false ∧ inTomorrowBucket todayStart bd = false ∧
      inRestOfWeekBucket todayStart bd = false ∧
      inRestOfMonthBucket todayStart days bd = false ∧
      inWeekTotal todayStart bd = false ∧ inMonthTotal todayStart days bd = false ∧
      addBilling todayStart days t bd amount = t) ∧
    (7 ≤ days → todayStart + days * 86400 ≤ bd →
      inTodayBucket todayStart bd = false ∧ inTomorrowBucket todayStart bd = false ∧
      inRestOfWeekBucket todayStart bd = false ∧
      inRestOfMonthBucket todayStart days bd = false ∧
      inWeekTotal todayStart bd = false ∧ inMonthTotal todayStart days bd = false ∧
      addBilling todayStart days t bd amount = t) := by
  refine ⟨⟨?_, ?_, ?_, ?_, ?_, ?_⟩, ?_, ?_⟩
  · simp only [inTodayBucket, inTomorrowBucket, decide_eq_true_eq]
    omega
  · simp only [inTodayBucket, inRestOfWeekBucket, decide_eq_true_eq]
    omega
  · simp only [inTodayBucket, inRestOfMonthBucket, decide_eq_true_eq]
    omega
  · simp only [inTomorrowBucket, inRestOfWeekBucket, decide_eq_true_eq]
    omega
  · simp only [inTomorrowBucket, inRestOfMonthBucket, decide_eq_true_eq]
    omega
  · simp only [inRestOfWeekBucket, inRestOfMonthBucket, decide_eq_true_eq]
    omega
  · intro hlt
    refine ⟨?_, ?_, ?_, ?_, ?_, ?_, ?_⟩ <;>
      first
        | (simp only [inTodayBucket, inTomorrowBucket, inRestOfWeekBucket,
            inRestOfMonthBucket, inWeekTotal, inMonthTotal, decide_eq_false_iff_not]
           omega)
        | (simp only [addBilling, inTodayBucket, inTomorrowBucket, inWeekTotal,
            inMonthTotal, decide_eq_true_eq]
           split_ifs <;> first | rfl | (exfalso; omega))
  · intro hdays hge
    refine ⟨?_, ?_, ?_, ?_, ?_, ?_, ?_⟩ <;>
      first
        | (simp only [inTodayBucket, inTomorrowBucket, inRestOfWeekBucket,
            inRestOfMonthBucket, inWeekTotal, inMonthTotal, decide_eq_false_iff_not]
           omega)
        | (simp only [addBilling, inTodayBucket, inTomorrowBucket, inWeekTotal,
            inMonthTotal, decide_eq_true_eq]
           split_ifs <;> first | rfl | (exfalso; omega))

/-- C10 witness: with daysAhead = 30 an overdue billing (5 s before today)
and a billing exactly 30 days out each leave all four totals untouched. -/
theorem billing_buckets_exclusive_and_bounded_witness :
    addBilling 0 30 ⟨1, 2, 3, 4⟩ (-5) 10 = ⟨1, 2, 3, 4⟩ ∧
    addBilling 0 30 ⟨1, 2, 3, 4⟩ 2592000 10 = ⟨1, 2, 3, 4⟩ := by
  have h1 := (billing_buckets_exclusive_and_bounded 0 30 (-5) ⟨1, 2, 3, 4⟩ 10).2.1
    (by norm_num)
  have h2 := (billing_buckets_exclusive_and_bounded 0 30 2592000 ⟨1, 2, 3, 4⟩ 10).2.2
    (by norm_num) (by norm_num)
  exact ⟨h1.2.2.2.2.2.2, h2.2.2.2.2.2.2⟩
